import Mathlib

/-!
Verification of the `caiushall.py` session controller and local booking cache.

The Python class `CaiusHall` is embedded shallowly: object state becomes the
structure `Caius.CaiusHall`, the network becomes an explicit `Caius.World`
record of external responses, the per-user data files on disk become a map
from file name to optional file contents, and every method becomes a pure
Lean function from the old state (plus the world) to its result and the new
state. Printed messages on the login path are reified as `Caius.AuthMsg`
values so that the distinct error branches of `auth` stay observable.
-/

namespace Caius

/-! ## Constants set in `CaiusHall.__init__` -/

def HALL_URL : String := "https://www.cai.cam.ac.uk/mealbookings/index.php"

def RAVEN_AUTH_PAGE : String := "https://raven.cam.ac.uk/auth/authenticate2.html"

def RAVEN_STATUS_PAGE : String := "https://raven.cam.ac.uk/auth/status.html"

def CERTS : String := "certs.pem"

def DATA_PATH : String := ""

/-! ## Data model -/

/-- A cookie jar, as the list of key-value pairs it holds.  A jar is falsy in
Python exactly when it holds no cookie. -/
abbrev Cookies := List (String × String)

/-- Embeds `requests.Session()`: the code only ever creates fresh sessions and
sets `verify` on them, so a session value is determined by its `verify` path. -/
structure RequestsSession where
  verify : String
deriving DecidableEq

/-- The session object built in `__init__` and in `logout`. -/
def newSession : RequestsSession := { verify := CERTS }

/-- One booking record, the `data` dict built by `local_book_hall`. -/
structure BookingData where
  utc_date : String
  type : String
  special : Bool
  special_info : String
  vegetarian : Bool
  requirements : String
deriving DecidableEq

/-- The `hall_bookings` Python dict: insertion-ordered key-value pairs. -/
abbrev Bookings := List (String × BookingData)

/-- Dict lookup: the value at the first matching key, if any. -/
def dictGet : Bookings → String → Option BookingData
  | [], _ => none
  | (k1, v) :: rest, k => if k1 = k then some v else dictGet rest k

/-- Dict assignment `m[k] = v`: replace the value at an existing key in place,
otherwise append the new pair at the end, as Python dicts do. -/
def dictInsert : Bookings → String → BookingData → Bookings
  | [], k, v => [(k, v)]
  | (k1, v1) :: rest, k, v =>
    if k1 = k then (k, v) :: rest else (k1, v1) :: dictInsert rest k v

/-- Dict deletion `del m[k]`: the key is gone afterwards. -/
def dictErase (m : Bookings) (k : String) : Bookings :=
  m.filter (fun p => p.1 != k)

/-- Dict membership `k in m`. -/
def dictContains (m : Bookings) (k : String) : Bool :=
  (dictGet m k).isSome

/-- The mutable attributes of a `CaiusHall` object. -/
structure CaiusHall where
  cookies : Option Cookies
  current_user : Option String
  hall_bookings : Bookings
  session : RequestsSession
deriving DecidableEq

/-- The state after `__init__`. -/
def CaiusHall.init : CaiusHall :=
  { cookies := none, current_user := none, hall_bookings := [], session := newSession }

/-- Truthiness of `self.cookies`: `None` and an empty jar are both falsy. -/
def truthyCookies : Option Cookies → Bool
  | none => false
  | some js => !js.isEmpty

/-! ## Dates and `strftime`

`local_book_hall` and `local_cancel_hall` receive a `datetime.datetime` and
render it with `strftime`.  We embed the fields the code reads and the three
format strings it uses; the weekday is computed by the standard Gregorian
formula, matching the proleptic Gregorian calendar of `datetime`. -/

structure DateTime where
  year : Nat
  month : Nat
  day : Nat
  hour : Nat
  minute : Nat
deriving DecidableEq

/-- Zero-pad a number to two digits, as `strftime` does for `%m %d %H %M`. -/
def pad2 (n : Nat) : String :=
  if n < 10 then "0" ++ toString n else toString n

/-- Zero-pad a year to four digits, as `strftime` does for `%Y`. -/
def pad4 (n : Nat) : String :=
  if n < 10 then "000" ++ toString n
  else if n < 100 then "00" ++ toString n
  else if n < 1000 then "0" ++ toString n
  else toString n

/-- Day of week of a Gregorian date, 0 = Sunday, by the Sakamoto method. -/
def dayOfWeek (y m d : Nat) : Nat :=
  let t : List Nat := [0, 3, 2, 5, 0, 3, 5, 1, 4, 6, 2, 4]
  let y1 := if m < 3 then y - 1 else y
  (y1 + y1 / 4 - y1 / 100 + y1 / 400 + t.getD (m - 1) 0 + d) % 7

/-- Weekday names as produced by `strftime %A`. -/
def dayName (n : Nat) : String :=
  ["Sunday", "Monday", "Tuesday", "Wednesday", "Thursday", "Friday",
   "Saturday"].getD (n % 7) "Sunday"

/-- `utc_date.strftime(%Y-%m-%d %H:%M)`, the canonical booking key. -/
def strftime_ymd_hm (d : DateTime) : String :=
  pad4 d.year ++ "-" ++ pad2 d.month ++ "-" ++ pad2 d.day ++ " "
    ++ pad2 d.hour ++ ":" ++ pad2 d.minute

/-- `utc_date.strftime(%A)`. -/
def strftime_A (d : DateTime) : String :=
  dayName (dayOfWeek d.year d.month d.day)

/-- `utc_date.strftime(%H:%M)`. -/
def strftime_HM (d : DateTime) : String :=
  pad2 d.hour ++ ":" ++ pad2 d.minute

/-! ## External world -/

/-- What the code reads off an HTTP response: the status code, the redirect
`location` header, the response cookie jar, and the texts of the
`span.error` elements that BeautifulSoup would extract from the body. -/
structure HTTPResponse where
  status_code : Nat
  location : String
  cookies : Cookies
  error_spans : List String

/-- The per-user data files on disk, keyed by file name; `none` means opening
the file raises `IOError`. -/
abbrev Files := String → Option Bookings

/-- The external responses one call observes: the final url of the liveness
`GET` to `HALL_URL`, the response to the sign-in `POST`, and the disk. -/
structure World where
  hall_get_url : String
  post_response : HTTPResponse
  data_files : Files

/-- File name used by `load_local_bookings` and `save_local_bookings`. -/
def data_file_name (user : String) : String :=
  DATA_PATH ++ user ++ "_data.json"

/-! ## Methods -/

/-- Embeds `is_authed`: with falsy cookies return `False` at once; otherwise
`GET` the hall url and compare `HALL_URL` with the final response url,
clearing `cookies` and `current_user` on a mismatch. -/
def is_authed (c : CaiusHall) (w : World) : Bool × CaiusHall :=
  if !truthyCookies c.cookies then
    (false, c)
  else if HALL_URL = w.hall_get_url then
    (true, c)
  else
    (false, { c with cookies := none, current_user := none })

/-- Embeds `load_local_bookings`: with a `current_user` set, read that user
file into `hall_bookings`; a missing file (`IOError`) is swallowed and the
mapping is left as it was; with no `current_user` only an error is printed. -/
def load_local_bookings (c : CaiusHall) (files : Files) : CaiusHall :=
  match c.current_user with
  | some u =>
    match files (data_file_name u) with
    | some bs => { c with hall_bookings := bs }
    | none => c
  | none => c

/-- Embeds `save_local_bookings`: with a `current_user` set, write the whole
`hall_bookings` mapping to that user file; otherwise print an error and write
nothing. -/
def save_local_bookings (c : CaiusHall) (files : Files) : Files :=
  match c.current_user with
  | some u => fun f => if f = data_file_name u then some c.hall_bookings else files f
  | none => files

/-- The distinct observable outcomes printed on the login path of `auth`. -/
inductive AuthMsg where
  | loggedIn (crsid : String)
  | serverError (msg : String)
  | unexpectedPage
  | badStatus (code : Nat)
deriving DecidableEq

/-- Embeds lines 65-92 of `auth`, from the sign-in `POST` on: a 302 whose
`location` is `RAVEN_STATUS_PAGE` records the response cookies, sets
`current_user` and loads the local bookings; any other 302 goes through the
`span.error` extraction; any other status prints the status code.  Only the
success branch touches the object state. -/
def auth_login_step (c : CaiusHall) (crsid : String) (w : World) :
    Bool × AuthMsg × CaiusHall :=
  let r := w.post_response
  if r.status_code = 302 then
    if r.location = RAVEN_STATUS_PAGE then
      let c1 := { c with cookies := some r.cookies, current_user := some crsid }
      (true, AuthMsg.loggedIn crsid, load_local_bookings c1 w.data_files)
    else
      match r.error_spans with
      | e :: _ => (false, AuthMsg.serverError e, c)
      | [] => (false, AuthMsg.unexpectedPage, c)
  else
    (false, AuthMsg.badStatus r.status_code, c)

/-- Embeds `auth`: when `crsid` equals `current_user`, first run the liveness
check and return `True` early if it passes; in every other case fall through
to the login procedure `auth_login_step`.  The password only travels to the
network, so it does not appear in the state transition. -/
def auth (c : CaiusHall) (crsid _pwd : String) (w : World) : Bool × CaiusHall :=
  if c.current_user = some crsid then
    let res := is_authed c w
    if res.1 then
      (true, res.2)
    else
      let s := auth_login_step res.2 crsid w
      (s.1, s.2.2)
  else
    let s := auth_login_step c crsid w
    (s.1, s.2.2)

/-- Embeds `logout`: empty the bookings, build a fresh session object, and
reset `current_user` and `cookies`. -/
def logout (c : CaiusHall) : CaiusHall :=
  { c with hall_bookings := [], session := newSession,
           current_user := none, cookies := none }

/-- Embeds `local_book_hall`: render the date, compute the `special` flag
from the fixed schedule, insert the record at the canonical key and save. -/
def local_book_hall (c : CaiusHall) (files : Files) (utc_date : DateTime)
    (type special_info : String) (vegetarian : Bool) (requirements : String) :
    CaiusHall × Files :=
  let utc_date_string := strftime_ymd_hm utc_date
  let day := strftime_A utc_date
  let time := strftime_HM utc_date
  let special : Bool :=
    !((time == "18:15" && type == "first")
      || (time == "19:20" && type == "formal" && day != "Sunday")
      || (time == "19:30" && type == "formal" && day == "Sunday"))
  let data : BookingData :=
    { utc_date := utc_date_string, type := type, special := special,
      special_info := special_info, vegetarian := vegetarian,
      requirements := requirements }
  let c1 := { c with hall_bookings := dictInsert c.hall_bookings utc_date_string data }
  (c1, save_local_bookings c1 files)

/-- Embeds `local_cancel_hall`: delete the record at the canonical key and
save when the key is present, returning `True`; otherwise print an error and
return `False`. -/
def local_cancel_hall (c : CaiusHall) (files : Files) (utc_date : DateTime) :
    Bool × CaiusHall × Files :=
  let utc_date_string := strftime_ymd_hm utc_date
  if dictContains c.hall_bookings utc_date_string then
    let c1 := { c with hall_bookings := dictErase c.hall_bookings utc_date_string }
    (true, c1, save_local_bookings c1 files)
  else
    (false, c, files)

/-- The meal-type enumeration of the specification data model, rendered into
the strings the code compares against. -/
inductive MealType where
  | FIRST
  | FORMAL
deriving DecidableEq

def MealType.render : MealType → String
  | .FIRST => "first"
  | .FORMAL => "formal"

/-! ## Concrete fixtures used by counterexamples and witnesses -/

/-- A formal-hall record held by the user alice. -/
def recA : BookingData :=
  { utc_date := "2024-03-17 19:30", type := "formal", special := false,
    special_info := "", vegetarian := false, requirements := "" }

/-- A state in which alice is logged in and holds one cached booking. -/
def st0A : CaiusHall :=
  { cookies := some [("pastylla", "x")], current_user := some "alice",
    hall_bookings := [("2024-03-17 19:30", recA)], session := newSession }

/-- A world whose liveness check redirects away from the hall url and whose
sign-in endpoint answers 200, with no data files on disk. -/
def w_stale : World :=
  { hall_get_url := "https://raven.cam.ac.uk/auth/",
    post_response :=
      { status_code := 200, location := "", cookies := [], error_spans := [] },
    data_files := fun _ => none }

/-- A world whose sign-in endpoint answers with the success redirect, with no
data files on disk. -/
def w_ok : World :=
  { hall_get_url := HALL_URL,
    post_response :=
      { status_code := 302, location := RAVEN_STATUS_PAGE,
        cookies := [("c", "2")], error_spans := [] },
    data_files := fun _ => none }

/-- A world in which the sign-in for bob succeeds but bob has no data file. -/
def w_bob : World :=
  { hall_get_url := HALL_URL,
    post_response :=
      { status_code := 302, location := RAVEN_STATUS_PAGE,
        cookies := [("c", "2")], error_spans := [] },
    data_files := fun _ => none }

/-- An empty disk. -/
def files0 : Files := fun _ => none

/-- Sunday 2024-03-17, 19:30, the slot of the cached booking of `st0A`. -/
def dSun : DateTime := ⟨2024, 3, 17, 19, 30⟩

/-! ## Dict lemmas -/

theorem dictGet_insert_self (m : Bookings) (k : String) (v : BookingData) :
    dictGet (dictInsert m k v) k = some v := by
  induction m with
  | nil => simp [dictInsert, dictGet]
  | cons p rest ih =>
    obtain ⟨k1, v1⟩ := p
    by_cases h : k1 = k <;> simp [dictInsert, dictGet, h, ih]

theorem dictGet_erase_self (m : Bookings) (k : String) :
    dictGet (dictErase m k) k = none := by
  induction m with
  | nil => rfl
  | cons p rest ih =>
    obtain ⟨k1, v1⟩ := p
    by_cases h : k1 = k <;> simp [dictErase, dictGet, h] at ih ⊢ <;> simp [ih]

/-! ## Claims -/

/-- Claim C1: `local_book_hall` stores a record whose nonstandard flag is
false exactly when the slot is 18:15 with meal type FIRST on any day, 19:20
with meal type FORMAL on a day other than Sunday, or 19:30 with meal type
FORMAL on a Sunday; every other combination of day, time and meal type is
flagged nonstandard. -/
theorem C1_standard_slot_flag (c : CaiusHall) (files : Files) (d : DateTime)
    (mt : MealType) (si : String) (veg : Bool) (req : String) :
    ∃ rec : BookingData,
      dictGet (local_book_hall c files d mt.render si veg req).1.hall_bookings
          (strftime_ymd_hm d) = some rec
      ∧ (rec.special = false ↔
          ((strftime_HM d = "18:15" ∧ mt = MealType.FIRST)
           ∨ (strftime_HM d = "19:20" ∧ mt = MealType.FORMAL
              ∧ strftime_A d ≠ "Sunday")
           ∨ (strftime_HM d = "19:30" ∧ mt = MealType.FORMAL
              ∧ strftime_A d = "Sunday"))) := by
  refine ⟨_, dictGet_insert_self _ _ _, ?_⟩
  cases mt <;>
    simp [MealType.render, Bool.not_eq_true', -Bool.not_eq_true,
      Bool.not_eq_false, and_assoc]
  tauto

/-- Claim C7: `logout` always produces the state with no owner, no cookies,
an empty booking mapping and a fresh transport session, whatever the prior
state was, and doing it twice is the same as doing it once. -/
theorem C7_logout_clears_and_idempotent (c : CaiusHall) :
    logout c = { cookies := none, current_user := none, hall_bookings := [],
                 session := newSession }
    ∧ logout (logout c) = logout c :=
  ⟨rfl, rfl⟩

/-- Claim C9: the meal-type comparison in `local_book_hall` is an exact
string comparison against the lowercase literals; any other string, uppercase
spellings included, always yields a nonstandard booking. -/
theorem C9_meal_type_exact_string (c : CaiusHall) (files : Files)
    (d : DateTime) (ty si : String) (veg : Bool) (req : String)
    (h1 : ty ≠ "first") (h2 : ty ≠ "formal") :
    ∃ rec : BookingData,
      dictGet (local_book_hall c files d ty si veg req).1.hall_bookings
          (strftime_ymd_hm d) = some rec
      ∧ rec.special = true := by
  refine ⟨_, dictGet_insert_self _ _ _, ?_⟩
  simp [h1, h2]

/-- Witness for C9 at the standard FIRST slot time with an uppercase meal
type: the stored booking is still flagged nonstandard. -/
theorem C9_meal_type_exact_string_witness :
    ∃ rec : BookingData,
      dictGet (local_book_hall CaiusHall.init files0 ⟨2024, 3, 17, 18, 15⟩
          "FIRST" "" false "").1.hall_bookings
          (strftime_ymd_hm ⟨2024, 3, 17, 18, 15⟩) = some rec
      ∧ rec.special = true :=
  C9_meal_type_exact_string CaiusHall.init files0 ⟨2024, 3, 17, 18, 15⟩
    "FIRST" "" false "" (by decide) (by decide)

/-- Claim C2: the login attempt succeeds exactly when the response is a 302
whose location is the status page; on that success, and only then, the
response cookies are recorded, the owner is set to the submitted identifier
and the booking cache for it is loaded; any other redirect goes through the
error-extraction path, yielding the first server-reported error message or
the unexpected-page outcome, and a non-302 status yields the bad-status
outcome; every non-success path returns failure and leaves the state alone. -/
theorem C2_login_attempt_outcomes (c : CaiusHall) (crsid : String) (w : World) :
    ((auth_login_step c crsid w).1 = true ↔
      (w.post_response.status_code = 302
       ∧ w.post_response.location = RAVEN_STATUS_PAGE))
    ∧ (w.post_response.status_code = 302 →
       w.post_response.location = RAVEN_STATUS_PAGE →
        auth_login_step c crsid w =
          (true, AuthMsg.loggedIn crsid,
            load_local_bookings
              { c with cookies := some w.post_response.cookies,
                       current_user := some crsid } w.data_files))
    ∧ (w.post_response.status_code = 302 →
       w.post_response.location ≠ RAVEN_STATUS_PAGE →
        ∀ e rest, w.post_response.error_spans = e :: rest →
          auth_login_step c crsid w = (false, AuthMsg.serverError e, c))
    ∧ (w.post_response.status_code = 302 →
       w.post_response.location ≠ RAVEN_STATUS_PAGE →
       w.post_response.error_spans = [] →
        auth_login_step c crsid w = (false, AuthMsg.unexpectedPage, c))
    ∧ (w.post_response.status_code ≠ 302 →
        auth_login_step c crsid w =
          (false, AuthMsg.badStatus w.post_response.status_code, c)) := by
  by_cases h1 : w.post_response.status_code = 302 <;>
    by_cases h2 : w.post_response.location = RAVEN_STATUS_PAGE <;>
      rcases he : w.post_response.error_spans with _ | ⟨e, rest⟩ <;>
        simp_all [auth_login_step]

/-- Witness for C2 at a concrete successful login. -/
theorem C2_login_attempt_outcomes_witness :
    (auth_login_step CaiusHall.init "abc1" w_ok).1 = true :=
  (C2_login_attempt_outcomes CaiusHall.init "abc1" w_ok).1.mpr ⟨rfl, rfl⟩

/-- Claim C5: `is_authed` with falsy cookies returns false at once, reading
nothing from the network; with cookies held it returns true exactly when the
final url of the GET equals the hall url, leaving the state alone on a
match and clearing both the cookies and the owner on a mismatch. -/
theorem C5_is_authed_contract (c : CaiusHall) (w w2 : World) :
    (truthyCookies c.cookies = false →
       is_authed c w = (false, c) ∧ is_authed c w = is_authed c w2)
    ∧ (truthyCookies c.cookies = true →
       ((is_authed c w).1 = true ↔ w.hall_get_url = HALL_URL)
       ∧ (w.hall_get_url = HALL_URL → is_authed c w = (true, c))
       ∧ (w.hall_get_url ≠ HALL_URL →
            is_authed c w =
              (false, { c with cookies := none, current_user := none }))) := by
  constructor
  · intro hf
    simp [is_authed, hf]
  · intro ht
    by_cases hu : HALL_URL = w.hall_get_url
    · refine ⟨?_, fun _ => ?_, fun hne => absurd hu.symm hne⟩
      · simp [is_authed, ht, hu]
      · simp [is_authed, ht, hu]
    · refine ⟨?_, fun heq => absurd heq.symm hu, fun _ => ?_⟩
      · simp [is_authed, ht, hu]
        exact fun heq => hu heq.symm
      · simp [is_authed, ht, hu]

/-- Witness for C5: the freshly constructed object holds no cookies, so the
check fails with no state change. -/
theorem C5_is_authed_contract_witness :
    is_authed CaiusHall.init w_stale = (false, CaiusHall.init) :=
  ((C5_is_authed_contract CaiusHall.init w_stale w_ok).1 rfl).1

/-- Claim C6: with an owner set, `local_cancel_hall` at a present key deletes
the record, persists the mapping to the owner file and returns true; at an
absent key it returns false and leaves both the state and the disk alone. -/
theorem C6_cancel_contract (c : CaiusHall) (files : Files) (d : DateTime)
    (u : String) (hu : c.current_user = some u) :
    (dictContains c.hall_bookings (strftime_ymd_hm d) = true →
       (local_cancel_hall c files d).1 = true
       ∧ (local_cancel_hall c files d).2.1 =
           { c with hall_bookings := dictErase c.hall_bookings (strftime_ymd_hm d) }
       ∧ dictGet (local_cancel_hall c files d).2.1.hall_bookings
           (strftime_ymd_hm d) = none
       ∧ (local_cancel_hall c files d).2.2 (data_file_name u) =
           some (dictErase c.hall_bookings (strftime_ymd_hm d)))
    ∧ (dictContains c.hall_bookings (strftime_ymd_hm d) = false →
       (local_cancel_hall c files d).1 = false
       ∧ (local_cancel_hall c files d).2.1 = c
       ∧ (local_cancel_hall c files d).2.2 = files) := by
  by_cases hc : dictContains c.hall_bookings (strftime_ymd_hm d) <;>
    simp_all [local_cancel_hall, save_local_bookings, dictGet_erase_self]

/-- Witness for C6: cancelling the one cached booking of alice succeeds. -/
theorem C6_cancel_contract_witness :
    (local_cancel_hall st0A files0 dSun).1 = true :=
  ((C6_cancel_contract st0A files0 dSun "alice" rfl).1 (by decide)).1

/-- Counterexample to claim C3: a stale session detected during `auth` does
not clear the booking cache.  With alice logged in, one cached booking, a
liveness check that redirects away and a retried login that fails, the whole
call returns false yet the booking mapping is exactly the one from before,
and nonempty, while the claim requires it to have been cleared when the
stale session was detected. -/
theorem C3_cache_not_cleared_counterexample :
    st0A.current_user = some "alice"
    ∧ (is_authed st0A w_stale).1 = false
    ∧ (auth st0A "alice" "pw" w_stale).1 = false
    ∧ (auth st0A "alice" "pw" w_stale).2.hall_bookings = st0A.hall_bookings
    ∧ st0A.hall_bookings ≠ [] :=
  ⟨rfl, rfl, rfl, rfl, by decide⟩

/-- Claim C3 as amended: when the liveness check run by `auth` for the
current user reports the session stale, the cookies and the owner are
cleared (whenever cookies were actually held), the booking cache is left
unchanged, and the login is retried exactly once — the result of the whole
call is exactly the result of the single sign-in POST issued from the
post-check state, so no second liveness check, recursion or further retry
can occur within the call. -/
theorem C3_single_retry_after_stale (c : CaiusHall) (crsid pwd : String)
    (w : World) (hu : c.current_user = some crsid)
    (hstale : (is_authed c w).1 = false) :
    (is_authed c w).2.hall_bookings = c.hall_bookings
    ∧ (truthyCookies c.cookies = true →
        (is_authed c w).2.cookies = none
        ∧ (is_authed c w).2.current_user = none)
    ∧ auth c crsid pwd w =
        ((auth_login_step (is_authed c w).2 crsid w).1,
         (auth_login_step (is_authed c w).2 crsid w).2.2) := by
  by_cases ht : truthyCookies c.cookies <;>
    by_cases hurl : HALL_URL = w.hall_get_url <;>
      simp_all [is_authed, auth]

/-- Witness for the amended C3 at the concrete stale-session state. -/
theorem C3_single_retry_after_stale_witness :
    (is_authed st0A w_stale).2.hall_bookings = st0A.hall_bookings :=
  (C3_single_retry_after_stale st0A "alice" "pw" w_stale rfl rfl).1

/-- Evaluation witnessing the C4 code bug: authenticating bob while the
state still belongs to alice succeeds and leaves the cached booking of alice
in the mapping now owned by bob, because `load_local_bookings` swallows the
missing-file error and keeps the previous mapping. -/
theorem C4_cross_user_cache_leak :
    st0A.current_user = some "alice"
    ∧ (auth st0A "bob" "pw" w_bob).1 = true
    ∧ (auth st0A "bob" "pw" w_bob).2.current_user = some "bob"
    ∧ (auth st0A "bob" "pw" w_bob).2.hall_bookings
        = [("2024-03-17 19:30", recA)] :=
  ⟨rfl, rfl, rfl, rfl⟩

/-- Claim C8: a booking added with an owner set is reproduced, as the same
record at the same canonical key, by loading that owner file into a freshly
constructed object. -/
theorem C8_durable_roundtrip (c : CaiusHall) (files : Files) (owner : String)
    (d : DateTime) (ty si : String) (veg : Bool) (req : String)
    (hu : c.current_user = some owner) :
    ∃ rec : BookingData,
      dictGet (local_book_hall c files d ty si veg req).1.hall_bookings
          (strftime_ymd_hm d) = some rec
      ∧ dictGet (load_local_bookings
            { CaiusHall.init with current_user := some owner }
            (local_book_hall c files d ty si veg req).2).hall_bookings
          (strftime_ymd_hm d) = some rec := by
  refine ⟨_, dictGet_insert_self _ _ _, ?_⟩
  simp [local_book_hall, load_local_bookings, save_local_bookings,
    CaiusHall.init, hu, dictGet_insert_self]

/-- Witness for C8: the booking alice adds for Monday formal hall comes back
from her data file on a fresh load. -/
theorem C8_durable_roundtrip_witness :
    ∃ rec : BookingData,
      dictGet (local_book_hall st0A files0 ⟨2024, 3, 18, 19, 20⟩
          "formal" "" false "").1.hall_bookings
          (strftime_ymd_hm ⟨2024, 3, 18, 19, 20⟩) = some rec
      ∧ dictGet (load_local_bookings
            { CaiusHall.init with current_user := some "alice" }
            (local_book_hall st0A files0 ⟨2024, 3, 18, 19, 20⟩
              "formal" "" false "").2).hall_bookings
          (strftime_ymd_hm ⟨2024, 3, 18, 19, 20⟩) = some rec :=
  C8_durable_roundtrip st0A files0 "alice" ⟨2024, 3, 18, 19, 20⟩
    "formal" "" false "" rfl

/-- Claim C10: a sign-in POST that does not answer 302 with the status-page
location makes the login step return false with the object state exactly as
it was before the POST; lifted to `auth`, whenever the early
already-logged-in return does not fire, the call returns false and the final
state is exactly the state from just before the POST was issued. -/
theorem C10_failed_login_is_frame (c : CaiusHall) (crsid pwd : String)
    (w : World)
    (h : ¬(w.post_response.status_code = 302
           ∧ w.post_response.location = RAVEN_STATUS_PAGE)) :
    (auth_login_step c crsid w).1 = false
    ∧ (auth_login_step c crsid w).2.2 = c
    ∧ (¬(c.current_user = some crsid ∧ (is_authed c w).1 = true) →
        auth c crsid pwd w =
          (false, if c.current_user = some crsid then (is_authed c w).2 else c)) := by
  have hstep : ∀ c1 : CaiusHall,
      (auth_login_step c1 crsid w).1 = false
      ∧ (auth_login_step c1 crsid w).2.2 = c1 := by
    intro c1
    by_cases h1 : w.post_response.status_code = 302 <;>
      by_cases h2 : w.post_response.location = RAVEN_STATUS_PAGE <;>
        rcases he : w.post_response.error_spans with _ | ⟨e, rest⟩ <;>
          simp_all [auth_login_step]
  refine ⟨(hstep c).1, (hstep c).2, fun hne => ?_⟩
  by_cases hcu : c.current_user = some crsid
  · have hlive : (is_authed c w).1 = false := by
      rcases Bool.eq_false_or_eq_true (is_authed c w).1 with hl | hl
      · exact absurd ⟨hcu, hl⟩ hne
      · exact hl
    simp [auth, hcu, hlive, (hstep (is_authed c w).2).1,
      (hstep (is_authed c w).2).2]
  · simp [auth, hcu, (hstep c).1, (hstep c).2]

/-- Witness for C10: a 200 answer from the sign-in endpoint leaves the state
of alice untouched. -/
theorem C10_failed_login_is_frame_witness :
    (auth_login_step st0A "bob" w_stale).2.2 = st0A :=
  (C10_failed_login_is_frame st0A "bob" "pw" w_stale (by decide)).2.1

end Caius
